import Mathlib

/-!
Verification development for the pg-data-agent repository.

The TypeScript sources are shallowly embedded as Lean definitions:
pure functions become Lean functions; the stateful WebSocket client
becomes explicit state passing; external capabilities (the Groq
completion capability, JSON.parse of capability output, the crypto
SHA-1 primitive, the SQL executors) become explicit parameters of the
embedded functions, so that every embedded function is deterministic
and executable.  JavaScript `x || d` on strings (falsy on missing and
on the empty string) is embedded as `jsOr`/`jsOrOpt`.
-/

namespace PgAgent

/-- JS `x || d` for an optional string: `undefined` and `""` are falsy. -/
def jsOrOpt (x : Option String) (d : String) : String :=
  match x with
  | none => d
  | some s => if s = "" then d else s

/-- JS `x || d` where `x` is a string field that is always present. -/
def jsOr (x : String) (d : String) : String :=
  if x = "" then d else x

/-! ## Occurrence counting over character lists

`countOcc pat l` counts the positions of `l` at which the pattern
`pat` occurs as a contiguous substring (for a nonempty pattern). -/

def countOcc (pat : List Char) : List Char → Nat
  | [] => 0
  | c :: cs => (if pat.isPrefixOf (c :: cs) then 1 else 0) + countOcc pat cs

/-! ## A model of JS values and of `JSON.stringify`

`Json` models the JS values that the agent builds and serializes;
`Json.stringify` models `JSON.stringify` (no extra whitespace, object
keys in construction order, strings escaped). -/

inductive Json where
  | null : Json
  | bool : Bool → Json
  | num : Nat → Json
  | str : String → Json
  | arr : List Json → Json
  | obj : List (String × Json) → Json
deriving Inhabited

/-- JSON escaping of a single character, as done by `JSON.stringify`. -/
def escapeChar (c : Char) : List Char :=
  if c = '"' then ['\\', '"']
  else if c = '\\' then ['\\', '\\']
  else if c = '\n' then ['\\', 'n']
  else if c = '\t' then ['\\', 't']
  else if c = '\r' then ['\\', 'r']
  else [c]

/-- JSON escaping of a string body. -/
def escapeString (s : String) : String :=
  ⟨s.data.flatMap escapeChar⟩

mutual

/-- Model of `JSON.stringify` on a `Json` value. -/
def Json.stringify : Json → String
  | .null => "null"
  | .bool true => "true"
  | .bool false => "false"
  | .num n => toString n
  | .str s => "\"" ++ escapeString s ++ "\""
  | .arr xs => "[" ++ stringifyList xs ++ "]"
  | .obj fs => "\x7b" ++ stringifyFields fs ++ "\x7d"

/-- Comma-separated serialization of array elements. -/
def stringifyList : List Json → String
  | [] => ""
  | [x] => Json.stringify x
  | x :: y :: xs => Json.stringify x ++ "," ++ stringifyList (y :: xs)

/-- Comma-separated serialization of object fields. -/
def stringifyFields : List (String × Json) → String
  | [] => ""
  | [(k, v)] => "\"" ++ escapeString k ++ "\":" ++ Json.stringify v
  | (k, v) :: f :: fs =>
      "\"" ++ escapeString k ++ "\":" ++ Json.stringify v ++ "," ++ stringifyFields (f :: fs)

end

/-! ## Envelopes and the outbound size guard

From `src/src/websocket/websocket-client.ts` (class with the size
guard, lines 118-153).  An envelope is a wire message with `id`,
`type`, `from`, `to` and a payload; `from`/`to`/`payload` are held as
arbitrary JS values. -/

structure Envelope where
  id : String
  type : String
  from_ : Json
  to_ : Json
  payload : Json

/-- The JS object the agent serializes for an envelope (key order as in
the object literals of `websocket-client.ts`). -/
def Envelope.toJson (e : Envelope) : Json :=
  .obj [("id", .str e.id), ("type", .str e.type), ("from", e.from_),
        ("to", e.to_), ("payload", e.payload)]

/-- `JSON.stringify` of the envelope: the frame text put on the wire. -/
def Envelope.serialize (e : Envelope) : String :=
  e.toJson.stringify

/-- Byte length of the UTF-8 encoding of a string (the JS
`Buffer.byteLength` of the serialized frame). -/
def utf8Len (s : String) : Nat :=
  (s.data.map Char.utf8Size).sum

/-- Result record of the message-size validation. -/
structure SizeValidation where
  isValid : Bool
  size : Nat
  maxSize : Nat

/-- Modelled from the spec: `validateMessageSize` is imported from
`userResponse/utils` but its definition is not among the given sources.
Per spec §4.3 it "computes the byte length of a message's serialized
form and compares to a configurable ceiling, returning validity plus
both measured and ceiling values", and per spec §8 a message of exactly
the ceiling size is valid while one byte larger is invalid. -/
def validateMessageSize (message : String) (maxSize : Nat) : SizeValidation :=
  let size := utf8Len message
  { isValid := decide (size ≤ maxSize), size := size, maxSize := maxSize }

/-- The `error` text of the oversize diagnostic payload built by `send`
(template literal at `websocket-client.ts:140`): it renders
`(validation.size / 1048576).toFixed(2)` megabytes.  `toFixed2MB`
models that fixed-point rendering with round-half-up on hundredths. -/
def toFixed2MB (size : Nat) : String :=
  let hundredths := (size * 100 + 524288) / 1048576
  toString (hundredths / 100) ++ "." ++
    (if hundredths % 100 < 10 then "0" else "") ++ toString (hundredths % 100)

/-- The oversize diagnostic message of `send`. -/
def oversizeErrorText (size : Nat) : String :=
  "Response too large (" ++ toFixed2MB size ++
    "MB). Please add LIMIT to your query or request less data."

/-- `send` of `websocket-client.ts` (lines 118-153), on the connected
path: the serialized frame is checked against the fixed 1 MiB ceiling;
a frame within the ceiling is written as-is, an oversized frame is
replaced by a diagnostic envelope with the same `id`/`type`/`from`/`to`.
The result is the envelope actually written to the channel together
with the boolean return value of `send`. -/
def send (e : Envelope) : Envelope × Bool :=
  let message := e.serialize
  let validation := validateMessageSize message 1048576
  if validation.isValid then
    (e, true)
  else
    let errorResponse : Envelope :=
      { id := e.id, type := e.type, from_ := e.from_, to_ := e.to_,
        payload := .obj [("error", .str (oversizeErrorText validation.size))] }
    (errorResponse, false)

/-! ## Row-limit guarantee (Safety Utilities)

`ensureQueryLimit` is imported from `userResponse/utils` by
`part_002` and `llm/groq-client.ts` with `DEFAULT_LIMIT = 50`, but its
definition is not among the given sources, so it is modelled from
spec §4.3. -/

/-- Whitespace as recognised when testing the leading keyword. -/
def isWsChar (c : Char) : Bool :=
  c = ' ' || c = '\t' || c = '\n' || c = '\r'

/-- The characters of the bound keyword, uppercase. -/
def limitPat : List Char := ['L', 'I', 'M', 'I', 'T']

/-- Modelled from the spec: a query is read-shaped when, after leading
whitespace and ignoring case, it begins with the read keyword `SELECT`
or with a leading common-table-expression clause `WITH` (§4.3). -/
def isReadShaped (q : String) : Bool :=
  let u := (q.data.dropWhile isWsChar).map Char.toUpper
  ['S', 'E', 'L', 'E', 'C', 'T'].isPrefixOf u || ['W', 'I', 'T', 'H'].isPrefixOf u

/-- Modelled from the spec: the query "already contains a bound
clause" when the bound keyword occurs in it, ignoring case (§4.3). -/
def hasLimitClause (q : String) : Bool :=
  countOcc limitPat (q.data.map Char.toUpper) != 0

/-- The trailing statement terminator test. -/
def endsWithSemi (q : String) : Bool :=
  q.data.getLast? = some ';'

/-- Modelled from the spec: `ensureQueryLimit` (spec §4.3), whose
definition is missing from the given sources.  A non-read-shaped query
is returned unmodified; a read-shaped query that already contains a
bound clause is returned unmodified; otherwise a bound clause with the
given default is appended immediately before a trailing statement
terminator if present, else at the end. -/
def ensureQueryLimit (query : String) (lim : Nat) : String :=
  if !(isReadShaped query) then query
  else if hasLimitClause query then query
  else if endsWithSemi query then
    String.mk query.data.dropLast ++ " LIMIT " ++ toString lim ++ ";"
  else query ++ " LIMIT " ++ toString lim

/-! ## Intent Resolver (`src/unnamed/part_002`)

The Groq completion capability and the subsequent `JSON.parse` of its
text content are external; each embedded resolver function therefore
takes the outcome of its capability call as an explicit argument:
`Except Unit α` is `.error ()` when the call threw (network failure or
`JSON.parse` failure on its content), and `.ok r` when it produced a
parsed JS object `r`, whose possibly-missing fields are `Option`s. -/

/-- The classification result of `classifyUserQuestion`. -/
structure Classification where
  questionType : String
  visualizations : List String
  reasoning : String
  needsMultipleComponents : Bool

/-- A parsed classification response object (fields may be absent). -/
structure ClassJson where
  questionType : Option String
  visualizations : Option (List String)
  reasoning : Option String
  needsMultipleComponents : Option Bool

/-- The catch-branch value of `classifyUserQuestion`
(`part_002:142-151`). -/
def classificationFallback : Classification :=
  { questionType := "analytical", visualizations := [],
    reasoning := "Error occurred during classification",
    needsMultipleComponents := false }

/-- `classifyUserQuestion` (`part_002:20-152`).  `capability` is the
outcome of the chat-completion call (`.ok content` carries
`choices[0]?.message?.content`), `parse` models `JSON.parse`; a throw
of either lands in the catch branch. -/
def classifyUserQuestion (capability : Except Unit (Option String))
    (parse : String → Except Unit ClassJson) : Classification :=
  match capability with
  | .error _ => classificationFallback
  | .ok content =>
    let responseText := jsOrOpt content "\x7b\x7d"
    match parse responseText with
    | .error _ => classificationFallback
    | .ok result =>
      { questionType := jsOrOpt result.questionType "general",
        visualizations := result.visualizations.getD [],
        reasoning := jsOrOpt result.reasoning "No reasoning provided",
        needsMultipleComponents := result.needsMultipleComponents.getD false }

/-- Component props (`query`, `title`, `description`, `config`) as in
`userResponse/types` and the prompt contracts of `part_002`. -/
structure ComponentProps where
  query : Option String
  title : Option String
  description : Option String
  config : Json

/-- A parsed props-validation response object. -/
structure PropsJson where
  props : Option ComponentProps
  isModified : Option Bool
  reasoning : Option String
  modifications : Option (List String)

/-- The return record of `validateAndModifyProps`. -/
structure PropsResult where
  props : ComponentProps
  isModified : Bool
  reasoning : String
  modifications : List String

/-- `validateAndModifyProps` (`part_002:158-296`).  On a capability (or
parse) failure the catch branch returns the original props unchanged;
on success the returned query, if present, is re-passed through the
row-limit guarantee with `DEFAULT_LIMIT = 50`. -/
def validateAndModifyProps (originalProps : ComponentProps)
    (capability : Except Unit PropsJson) : PropsResult :=
  match capability with
  | .error _ =>
    { props := originalProps, isModified := false,
      reasoning := "Error occurred during validation, using original props",
      modifications := [] }
  | .ok result =>
    let props := result.props.getD originalProps
    let props :=
      match props.query with
      | some q => { props with query := some (ensureQueryLimit q 50) }
      | none => props
    { props := props, isModified := result.isModified.getD false,
      reasoning := jsOrOpt result.reasoning "No modifications needed",
      modifications := result.modifications.getD [] }

/-- An artifact (`Component` of `userResponse/types`). -/
structure Component where
  id : String
  name : String
  type : String
  description : Option String
  category : String
  keywords : List String
  props : ComponentProps

/-- A parsed single-generation response object
(`generateAnalyticalComponent`'s output contract). -/
structure SingleGenJson where
  canGenerate : Bool
  componentType : String
  query : String
  title : Option String
  description : Option String
  config : Option Json
  reasoning : Option String

/-- The return record of `generateAnalyticalComponent`. -/
structure GenResult where
  component : Option Component
  reasoning : String
  isGenerated : Bool

/-- `generateAnalyticalComponent` (`part_002:389-535`).  The optional
preferred visualization type only constrains the capability prompt, so
it is embodied in the capability outcome; `now` models `Date.now()`.
On success the generated query is passed through the row-limit
guarantee before being embedded in a freshly minted component. -/
def generateAnalyticalComponent (capability : Except Unit SingleGenJson)
    (now : Nat) : GenResult :=
  match capability with
  | .error _ =>
    { component := none,
      reasoning := "Error occurred while generating component", isGenerated := false }
  | .ok result =>
    if !result.canGenerate then
      { component := none,
        reasoning := jsOrOpt result.reasoning "Unable to generate component for this question",
        isGenerated := false }
    else
      let query := ensureQueryLimit result.query 50
      let dynamicComponent : Component :=
        { id := "dynamic_" ++ toString now,
          name := "Dynamic" ++ result.componentType,
          type := result.componentType,
          description := result.description,
          category := "dynamic", keywords := [],
          props := { query := some query, title := result.title,
                     description := result.description,
                     config := result.config.getD (.obj []) } }
      { component := some dynamicComponent,
        reasoning := jsOrOpt result.reasoning
          "Generated dynamic component based on analytical question",
        isGenerated := true }

/-- One per-component props set of a multi-generation response. -/
structure CompSpecJson where
  componentType : String
  query : String
  title : Option String
  description : Option String
  config : Option Json

/-- A parsed multi-generation response object. -/
structure MultiGenJson where
  canGenerate : Bool
  components : Option (List CompSpecJson)
  containerTitle : Option String
  containerDescription : Option String
  reasoning : Option String

/-- The container `config` built by `generateMultiComponentResponse`. -/
structure ContainerConfig where
  components : List Component
  layout : String
  spacing : Nat
  title : Option String
  description : Option String

/-- The `MultiComponentContainer` wrapper component. -/
structure ContainerComponent where
  id : String
  name : String
  type : String
  description : Option String
  category : String
  keywords : List String
  config : ContainerConfig

/-- The return record of `generateMultiComponentResponse`. -/
structure MultiGenResult where
  containerComponent : Option ContainerComponent
  reasoning : String
  isGenerated : Bool

/-- Lower-casing of a component-type tag (JS `toLowerCase`). -/
def lowerString (s : String) : String :=
  ⟨s.data.map Char.toLower⟩

/-- `result.components.map((compData, index) => ...)` with its running
index. -/
def mapIdx (f : Nat → α → β) : Nat → List α → List β
  | _, [] => []
  | i, x :: xs => f i x :: mapIdx f (i + 1) xs

/-- The child artifact built for one props set
(`part_002:698-716`): the query is passed through the row-limit
guarantee with `DEFAULT_LIMIT = 50`. -/
def buildMultiChild (now : Nat) (index : Nat) (compData : CompSpecJson) : Component :=
  { id := "dynamic_" ++ lowerString compData.componentType ++ "_" ++
      toString now ++ "_" ++ toString index,
    name := "Dynamic" ++ compData.componentType,
    type := compData.componentType,
    description := compData.description,
    category := "dynamic", keywords := [],
    props := { query := some (ensureQueryLimit compData.query 50),
               title := compData.title,
               description := compData.description,
               config := compData.config.getD (.obj []) } }

/-- `generateMultiComponentResponse` (`part_002:590-750`): builds one
child artifact per props set returned by the capability and wraps them
in a single `MultiComponentContainer` with a grid layout. -/
def generateMultiComponentResponse (capability : Except Unit MultiGenJson)
    (now : Nat) : MultiGenResult :=
  match capability with
  | .error _ =>
    { containerComponent := none,
      reasoning := "Error occurred while generating multi-component dashboard",
      isGenerated := false }
  | .ok result =>
    if !result.canGenerate || (result.components.getD []).isEmpty then
      { containerComponent := none,
        reasoning := jsOrOpt result.reasoning "Unable to generate multi-component dashboard",
        isGenerated := false }
    else
      let generatedComponents := mapIdx (buildMultiChild now) 0 (result.components.getD [])
      let containerComponent : ContainerComponent :=
        { id := "multi_container_" ++ toString now,
          name := "MultiComponentContainer",
          type := "Container",
          description := result.containerDescription,
          category := "dynamic",
          keywords := ["multi", "container", "dashboard"],
          config := { components := generatedComponents, layout := "grid", spacing := 24,
                      title := result.containerTitle,
                      description := result.containerDescription } }
      { containerComponent := some containerComponent,
        reasoning := jsOrOpt result.reasoning
          ("Generated multi-component dashboard with " ++
            toString generatedComponents.length ++ " components"),
        isGenerated := true }

/-- The component slot of `handleUserRequest`'s result: in the source
it is `Component | null`, where the multi path returns the container
wrapper; the two shapes are separated here. -/
inductive ResolvedComponent where
  | missing : ResolvedComponent
  | single : Component → ResolvedComponent
  | container : ContainerComponent → ResolvedComponent

/-- Whether the resolved component is the container wrapper. -/
def ResolvedComponent.isContainer : ResolvedComponent → Bool
  | .container _ => true
  | _ => false

/-- `Option Component` to the result slot. -/
def ResolvedComponent.ofOption : Option Component → ResolvedComponent
  | none => .missing
  | some c => .single c

/-- The result of the legacy matching flow `matchComponentFromGroq`,
abstracted: the data-modification branch of `handleUserRequest` only
forwards these fields. -/
structure MatchResultLite where
  component : Option Component
  reasoning : String
  propsModified : Option Bool
  queryModified : Option Bool

/-- The return record of `handleUserRequest`. -/
structure HURResult where
  component : ResolvedComponent
  reasoning : String
  method : String
  questionType : String
  needsMultipleComponents : Bool
  propsModified : Option Bool
  queryModified : Option Bool

/-- `handleUserRequest` (`part_002:757-855`): routes the classified
prompt.  `multiCap` and `singleCap` are the capability outcomes of the
generation call the taken branch performs (the single branch passes
`classification.visualizations[0]`, when present, into the prompt
only); `matchResult` abstracts `matchComponentFromGroq`. -/
def handleUserRequest (classification : Classification)
    (multiCap : Except Unit MultiGenJson) (singleCap : Except Unit SingleGenJson)
    (matchResult : MatchResultLite) (now : Nat) : HURResult :=
  if classification.questionType = "analytical" then
    if classification.visualizations.length > 0 then
      if classification.needsMultipleComponents
          && decide (classification.visualizations.length > 1) then
        let result := generateMultiComponentResponse multiCap now
        { component := match result.containerComponent with
            | some c => .container c
            | none => .missing,
          reasoning := result.reasoning,
          method := "classification-multi-generated",
          questionType := classification.questionType,
          needsMultipleComponents := true,
          propsModified := some false, queryModified := some false }
      else
        let result := generateAnalyticalComponent singleCap now
        { component := .ofOption result.component,
          reasoning := result.reasoning,
          method := "classification-generated",
          questionType := classification.questionType,
          needsMultipleComponents := false,
          propsModified := some false, queryModified := some false }
    else
      let result := generateAnalyticalComponent singleCap now
      { component := .ofOption result.component,
        reasoning := result.reasoning,
        method := "classification-generated-auto",
        questionType := classification.questionType,
        needsMultipleComponents := false,
        propsModified := some false, queryModified := some false }
  else if classification.questionType = "data_modification" then
    { component := .ofOption matchResult.component,
      reasoning := matchResult.reasoning,
      method := "classification-matched",
      questionType := classification.questionType,
      needsMultipleComponents := false,
      propsModified := matchResult.propsModified,
      queryModified := matchResult.queryModified }
  else
    { component := .missing,
      reasoning := "General question - no component needed",
      method := "classification-general",
      questionType := classification.questionType,
      needsMultipleComponents := false,
      propsModified := none, queryModified := none }

/-! ## Reconnect policy (`websocket-client.ts:484-503` / `869-888`) -/

/-- The client fields that `handleReconnect` reads and writes. -/
structure WSClientState where
  reconnectAttempts : Nat
  maxReconnectAttempts : Nat
  reconnectInterval : Nat
  shouldReconnect : Bool
deriving DecidableEq

/-- The field initializers of `WebSocketClient`. -/
def initialClientState : WSClientState :=
  { reconnectAttempts := 0, maxReconnectAttempts := 10,
    reconnectInterval := 5000, shouldReconnect := true }

/-- The observable outcome of one `handleReconnect` call:
one reconnect attempt scheduled after the given delay, the
reconnection-disabled early return, or the terminal
"Max reconnect attempts reached. Giving up." log. -/
inductive ReconnectAction where
  | scheduled : Nat → ReconnectAction
  | disabledNoReconnect : ReconnectAction
  | gaveUpTerminal : ReconnectAction
deriving DecidableEq

/-- `handleReconnect`: below the maximum the attempt counter is
incremented and one reconnect is scheduled after `reconnectInterval`
milliseconds; at or above the maximum nothing is scheduled. -/
def handleReconnect (s : WSClientState) : WSClientState × ReconnectAction :=
  if !s.shouldReconnect then (s, .disabledNoReconnect)
  else if s.reconnectAttempts ≥ s.maxReconnectAttempts then (s, .gaveUpTerminal)
  else ({ s with reconnectAttempts := s.reconnectAttempts + 1 },
        .scheduled s.reconnectInterval)

/-- The client state after `n` consecutive unexpected closures starting
from `s`, with no successful open between them (each closure fires the
`close` handler, which calls `handleReconnect`; no open means no
counter reset). -/
def closuresFrom (s : WSClientState) : Nat → WSClientState
  | 0 => s
  | n + 1 => (handleReconnect (closuresFrom s n)).1

/-! ## Request/response correlation (`websocket-client.ts:633-661`,
`694-713`)

`pendingRequests` is modelled by its key set, a duplicate-free list of
ids; the resolve/reject callbacks are modelled by the emitted action. -/

/-- An inbound frame already parsed as JSON (`id` is `""` when the
field is missing, matching JS falsiness). -/
structure WireMsg where
  id : String
  type : String

/-- `pendingRequests.has`. -/
def hasPending : List String → String → Bool
  | [], _ => false
  | x :: xs, id => x = id || hasPending xs id

/-- `pendingRequests.delete`. -/
def erasePending : List String → String → List String
  | [], _ => []
  | x :: xs, id => if x = id then xs else x :: erasePending xs id

/-- `pendingRequests.set(messageId, ...)` in `sendWithResponse`. -/
def registerPending (pending : List String) (id : String) : List String :=
  id :: pending

/-- What one inbound frame leads to: completion of a pending local
request, dispatch to the named handler, or nothing (the `onMessage`
type switch has no matching branch). -/
inductive InboundAction where
  | resolvedPending : WireMsg → InboundAction
  | handledBy : String → WireMsg → InboundAction
  | ignored : WireMsg → InboundAction

/-- The `onMessage` type switch of the correlating client
(`websocket-client.ts:663-676`): `data_req` and `user_prompt_req` are
dispatched, `user_prompt_suggestions` is only logged, anything else
falls through. -/
def onMessage (m : WireMsg) : InboundAction :=
  if m.type = "data_req" then .handledBy "handleDataReq" m
  else if m.type = "user_prompt_suggestions" then .ignored m
  else if m.type = "user_prompt_req" then .handledBy "handleUserPromptReq" m
  else .ignored m

/-- `handleMessage` (`websocket-client.ts:633-661`) on a frame that
parsed as JSON: a message whose `id` is registered completes that
pending request (clearing its timer and deleting the entry), otherwise
the message goes to `onMessage`. -/
def handleMessage (pending : List String) (m : WireMsg) :
    List String × InboundAction :=
  if m.id ≠ "" ∧ hasPending pending m.id = true then
    (erasePending pending m.id, .resolvedPending m)
  else (pending, onMessage m)

/-- The timeout rejection of `sendWithResponse`. -/
inductive TimeoutAction where
  | rejectedTimeout : String → TimeoutAction
deriving DecidableEq

/-- The `setTimeout` callback of `sendWithResponse`
(`websocket-client.ts:703-706`): deletes the entry and rejects with
the timeout error. -/
def fireTimeout (pending : List String) (id : String) :
    List String × TimeoutAction :=
  (erasePending pending id, .rejectedTimeout id)

/-! ## `handleDataReq` (`websocket-client.ts:155-204`) -/

/-- The result contract of `executeRawSQL` (`db/queries`):
`{success, data | errors}`. -/
structure QueryResult where
  success : Bool
  data : Option Json
  errors : Option (List String)

/-- The fields of an inbound `data_req` envelope that `handleDataReq`
reads (`data.id`, `data.from?.id`, `data.payload?.query`). -/
structure DataReqMsg where
  id : Option String
  fromId : Option String
  payloadQuery : Option String

/-- The `data_res` envelope that `handleDataReq` sends; `payload` is
`none` when the JS field is `undefined` (omitted by
`JSON.stringify`). -/
structure DataResponse where
  id : String
  type : String
  from_ : Json
  to_ : Json
  payload : Option Json

/-- `handleDataReq` (`websocket-client.ts:155-204`), with the executor
outcome as an argument.  On a blank query the error payload is sent;
otherwise `response.payload` is first assigned `result.errors` inside
`if (!result.success)` and then unconditionally overwritten with
`result.data` before sending. -/
def handleDataReq (msg : DataReqMsg) (result : QueryResult) : DataResponse :=
  let id := jsOrOpt msg.id "unknown"
  let toField : Json :=
    .obj ([("type", .str "runtime")] ++
      (match msg.fromId with
       | some fid => [("id", .str fid)]
       | none => []))
  let base : DataResponse :=
    { id := id, type := "data_res",
      from_ := .obj [("type", .str "data_agent")],
      to_ := toField, payload := none }
  match msg.payloadQuery with
  | none => { base with payload := some (.obj [("error", .str "Invalid query")]) }
  | some q =>
    if q.data.all isWsChar then
      { base with payload := some (.obj [("error", .str "Invalid query")]) }
    else
      let payloadAfterFailureBranch : Option Json :=
        if !result.success then
          some (.arr ((result.errors.getD []).map Json.str))
        else none
      let _ := payloadAfterFailureBranch
      { base with payload := result.data }

/-! ## Credential validation (`src/src/auth/validator.ts`,
`src/src/auth/user-storage.ts`)

The crypto SHA-1 primitive used by `hashPassword` is external
(`crypto.createHash('sha1')...digest('hex')`); it is taken as an
explicit function argument `sha1hex`. -/

/-- A stored user record (`user-storage.ts`). -/
structure User where
  username : String
  password : String
  userids : List String

/-- `findUserByUsername` over the loaded users file. -/
def findUserByUsername (users : List User) (username : String) : Option User :=
  users.find? (fun u => u.username = username)

/-- `hashPassword` (`auth/utils`, `websocket-client.ts:935-937`):
SHA-1 hex digest of the given text. -/
def hashPassword (sha1hex : String → String) (password : String) : String :=
  sha1hex password

/-- The login credentials record. -/
structure LoginCredentials where
  username : String
  password : String

/-- The result record of `validateUser`. -/
structure ValidationResult where
  success : Bool
  message : String
  username : Option String

/-- `validateUser` (`validator.ts:20-56`): hashes the *stored* password
and compares the digest with the *incoming* password field, which is
not hashed. -/
def validateUser (sha1hex : String → String) (users : List User)
    (credentials : LoginCredentials) : ValidationResult :=
  if credentials.username = "" ∨ credentials.password = "" then
    { success := false, message := "Username and password are required",
      username := none }
  else
    match findUserByUsername users credentials.username with
    | none => { success := false, message := "Invalid username ", username := none }
    | some user =>
      let hashedPassword := hashPassword sha1hex user.password
      if hashedPassword ≠ credentials.password then
        { success := false, message := "Invalid  password", username := none }
      else
        { success := true, message := "Authentication successful",
          username := some user.username }

/-! ## Concrete instances used by the witnesses and counterexamples -/

/-- 1100000 copies of a plain ASCII character. -/
def bigList : List Char := List.replicate 1100000 'a'

/-- A payload string of 1100000 bytes. -/
def bigStr : String := ⟨bigList⟩

/-- A `data_res` envelope whose serialized form (1100063 bytes)
exceeds the 1 MiB ceiling. -/
def bigEnvelope : Envelope := ⟨"1", "data_res", .null, .null, .str bigStr⟩

/-- A small envelope, comfortably within the ceiling. -/
def smallEnvelope : Envelope :=
  ⟨"2", "data_res", .obj [("type", .str "data_agent")], .null, .str "ok"⟩

/-- The oversize diagnostic text produced for `bigEnvelope`. -/
def oversizeMsgBig : String :=
  "Response too large (1.05MB). Please add LIMIT to your query or request less data."

/-- A classification with two visualization types but
`needsMultipleComponents = false`. -/
def clsTwoTypesNoFlag : Classification :=
  { questionType := "analytical", visualizations := ["KPICard", "DataTable"],
    reasoning := "needs both metric and rows", needsMultipleComponents := false }

/-- A compliant multi-generation capability outcome: one props set per
requested type of `clsTwoTypesNoFlag`. -/
def multiCapTwo : Except Unit MultiGenJson :=
  .ok { canGenerate := true,
        components := some
          [{ componentType := "KPICard", query := "SELECT COUNT(*) AS value FROM orders",
             title := some "Total Orders", description := some "count", config := none },
           { componentType := "DataTable", query := "SELECT * FROM orders",
             title := some "Orders", description := some "rows", config := none }],
        containerTitle := some "Orders Overview",
        containerDescription := some "count and rows",
        reasoning := none }

/-- A single-generation capability outcome that can generate. -/
def singleCapKpi : Except Unit SingleGenJson :=
  .ok { canGenerate := true, componentType := "KPICard",
        query := "SELECT COUNT(*) AS value FROM orders",
        title := some "Total Orders", description := some "count",
        config := none, reasoning := none }

/-- An empty legacy-match result. -/
def matchNone : MatchResultLite :=
  { component := none, reasoning := "", propsModified := none, queryModified := none }

/-! # Theorems -/

/-! ## Reconnect bound (C5) -/

/-- After the maximum is reached, further closures leave the client
state unchanged. -/
theorem closuresFrom_stable (m : Nat) :
    closuresFrom initialClientState (10 + m) = closuresFrom initialClientState 10 := by
  induction m with
  | zero => rfl
  | succ m ih =>
    have h10 : (handleReconnect (closuresFrom initialClientState 10)).1 =
        closuresFrom initialClientState 10 := by decide
    calc closuresFrom initialClientState (10 + (m + 1))
        = (handleReconnect (closuresFrom initialClientState (10 + m))).1 := rfl
      _ = (handleReconnect (closuresFrom initialClientState 10)).1 := by rw [ih]
      _ = closuresFrom initialClientState 10 := h10

/-- Claim C5: starting from the initial client state, each of the first
ten consecutive unexpected closures increments the attempt counter and
schedules exactly one reconnect attempt after the fixed 5000 ms delay;
after exactly ten such closures the counter equals the maximum, and
every further closure hits the terminal "give up" branch and schedules
nothing. -/
theorem c5_reconnect_bound :
    (∀ k, k < 10 →
      (handleReconnect (closuresFrom initialClientState k)).2 = .scheduled 5000 ∧
      (closuresFrom initialClientState (k + 1)).reconnectAttempts = k + 1) ∧
    (closuresFrom initialClientState 10).reconnectAttempts = 10 ∧
    (∀ n, 10 ≤ n →
      (handleReconnect (closuresFrom initialClientState n)).2 = .gaveUpTerminal ∧
      closuresFrom initialClientState n = closuresFrom initialClientState 10) := by
  refine ⟨by decide, by decide, ?_⟩
  intro n hn
  obtain ⟨m, rfl⟩ : ∃ m, n = 10 + m := ⟨n - 10, by omega⟩
  rw [closuresFrom_stable]
  exact ⟨by decide, rfl⟩

/-- Witness for C5 at the concrete closures 3 and 12. -/
theorem c5_reconnect_bound_witness :
    ((handleReconnect (closuresFrom initialClientState 3)).2 = .scheduled 5000 ∧
      (closuresFrom initialClientState 4).reconnectAttempts = 4) ∧
    ((handleReconnect (closuresFrom initialClientState 12)).2 = .gaveUpTerminal ∧
      closuresFrom initialClientState 12 = closuresFrom initialClientState 10) :=
  ⟨c5_reconnect_bound.1 3 (by decide), c5_reconnect_bound.2.2 12 (by decide)⟩

/-! ## Request/response correlation (C4) -/

/-- Claim C4: with a fresh pending registration under `id`, a reply
carrying that `id` resolves exactly that entry — the table returns to
its previous contents and the action is the resolution with the reply;
if instead the deadline timer fires first, the entry is removed and
rejected with the timeout error; and a reply for that `id` arriving
after the removal resolves nothing and, its type being a response type
outside the inbound-dispatch set, is dispatched to no handler. -/
theorem c4_correlation (p : List String) (id : String) (m : WireMsg)
    (hfresh : hasPending p id = false) (hid : id ≠ "") (hm : m.id = id) :
    handleMessage (registerPending p id) m = (p, .resolvedPending m) ∧
    fireTimeout (registerPending p id) id = (p, .rejectedTimeout id) ∧
    (m.type ≠ "data_req" → m.type ≠ "user_prompt_suggestions" →
      m.type ≠ "user_prompt_req" →
      handleMessage p m = (p, .ignored m)) := by
  refine ⟨?_, ?_, ?_⟩
  · rw [handleMessage, if_pos ⟨hm ▸ hid, by simp [registerPending, hasPending, hm]⟩]
    simp [registerPending, erasePending, hm]
  · simp [fireTimeout, registerPending, erasePending]
  · intro h1 h2 h3
    rw [handleMessage, if_neg (by rw [hm]; simp [hfresh])]
    simp [onMessage, h1, h2, h3]

/-- Witness for C4: a pending request `req-1` among one other pending
entry, and a reply of the response type `component_list_res`. -/
theorem c4_correlation_witness :
    handleMessage (registerPending ["other"] "req-1") ⟨"req-1", "component_list_res"⟩ =
      (["other"], .resolvedPending ⟨"req-1", "component_list_res"⟩) ∧
    fireTimeout (registerPending ["other"] "req-1") "req-1" =
      (["other"], .rejectedTimeout "req-1") ∧
    handleMessage ["other"] ⟨"req-1", "component_list_res"⟩ =
      (["other"], .ignored ⟨"req-1", "component_list_res"⟩) :=
  have h := c4_correlation ["other"] "req-1" ⟨"req-1", "component_list_res"⟩
    (by decide) (by decide) rfl
  ⟨h.1, h.2.1, h.2.2 (by decide) (by decide) (by decide)⟩

/-! ## Classification fallback (C6) -/

/-- Claim C6: if the completion capability throws, or returns content
on which `JSON.parse` fails, `classifyUserQuestion` returns
`questionType = "analytical"`, an empty visualizations list and
`needsMultipleComponents = false`. -/
theorem c6_classification_fallback (cap : Except Unit (Option String))
    (parse : String → Except Unit ClassJson) :
    (cap = .error () →
      (classifyUserQuestion cap parse).questionType = "analytical" ∧
      (classifyUserQuestion cap parse).visualizations = [] ∧
      (classifyUserQuestion cap parse).needsMultipleComponents = false) ∧
    (∀ content, cap = .ok content →
      parse (jsOrOpt content "\x7b\x7d") = .error () →
      (classifyUserQuestion cap parse).questionType = "analytical" ∧
      (classifyUserQuestion cap parse).visualizations = [] ∧
      (classifyUserQuestion cap parse).needsMultipleComponents = false) := by
  constructor
  · intro h
    subst h
    simp [classifyUserQuestion, classificationFallback]
  · intro content h hp
    subst h
    simp [classifyUserQuestion, hp, classificationFallback]

/-- Witness for C6: a thrown capability call, and unparseable content
with a parse model that rejects everything. -/
theorem c6_classification_fallback_witness :
    ((classifyUserQuestion (.error ()) (fun _ => .error ())).questionType = "analytical" ∧
      (classifyUserQuestion (.error ()) (fun _ => .error ())).visualizations = [] ∧
      (classifyUserQuestion (.error ()) (fun _ => .error ())).needsMultipleComponents = false) ∧
    ((classifyUserQuestion (.ok (some "not json")) (fun _ => .error ())).questionType = "analytical" ∧
      (classifyUserQuestion (.ok (some "not json")) (fun _ => .error ())).visualizations = [] ∧
      (classifyUserQuestion (.ok (some "not json")) (fun _ => .error ())).needsMultipleComponents = false) :=
  ⟨(c6_classification_fallback (.error ()) (fun _ => .error ())).1 rfl,
   (c6_classification_fallback (.ok (some "not json")) (fun _ => .error ())).2
     (some "not json") rfl rfl⟩

/-! ## Props validation absorbs capability failure (C8) -/

/-- Claim C8: when the completion-capability call inside props
validation fails, `validateAndModifyProps` returns the original props
unchanged, `isModified = false` and an empty modifications list (the
failure is absorbed by the catch branch and the function still returns
normally). -/
theorem c8_props_validation_absorbs_failure (originalProps : ComponentProps)
    (cap : Except Unit PropsJson) (h : cap = .error ()) :
    (validateAndModifyProps originalProps cap).props = originalProps ∧
    (validateAndModifyProps originalProps cap).isModified = false ∧
    (validateAndModifyProps originalProps cap).modifications = [] := by
  subst h
  exact ⟨rfl, rfl, rfl⟩

/-- Witness for C8 at a concrete props object. -/
theorem c8_props_validation_absorbs_failure_witness :
    (validateAndModifyProps
      ⟨some "SELECT * FROM supply_chain_data", some "Rows", none, .obj []⟩
      (.error ())).props = ⟨some "SELECT * FROM supply_chain_data", some "Rows", none, .obj []⟩ ∧
    (validateAndModifyProps
      ⟨some "SELECT * FROM supply_chain_data", some "Rows", none, .obj []⟩
      (.error ())).isModified = false ∧
    (validateAndModifyProps
      ⟨some "SELECT * FROM supply_chain_data", some "Rows", none, .obj []⟩
      (.error ())).modifications = [] :=
  c8_props_validation_absorbs_failure
    ⟨some "SELECT * FROM supply_chain_data", some "Rows", none, .obj []⟩ (.error ()) rfl

/-! ## Login compares incoming field with hash of stored password (C9) -/

/-- Claim C9: for a login whose username is found in the credential
store (and is nonempty, as a JS-falsy username is rejected before the
lookup), `validateUser` succeeds exactly when the incoming password
field equals the SHA-1 hex digest of the *stored* password; the
incoming value itself is never hashed. -/
theorem c9_login_compares_hash_of_stored (sha1hex : String → String)
    (users : List User) (c : LoginCredentials) (user : User)
    (hfind : findUserByUsername users c.username = some user)
    (husr : c.username ≠ "") (hhash : sha1hex user.password ≠ "") :
    (validateUser sha1hex users c).success = true ↔
      c.password = hashPassword sha1hex user.password := by
  unfold validateUser
  by_cases hp : c.password = ""
  · rw [if_pos (Or.inr hp)]
    simp only [hp, hashPassword]
    constructor
    · intro h
      exact absurd h (by simp)
    · intro h
      exact absurd h.symm hhash
  · rw [if_neg (by push_neg; exact ⟨husr, hp⟩), hfind]
    dsimp only
    by_cases heq : hashPassword sha1hex user.password = c.password
    · rw [if_neg (by simpa using heq)]
      simp [heq.symm]
    · rw [if_pos (by simpa using heq)]
      simp only []
      constructor
      · intro h
        exact absurd h (by simp)
      · intro h
        exact absurd h.symm heq

/-- Witness for C9: with the digest primitive modelled concretely, the
login succeeds on the digest of the stored password presented as the
incoming password. -/
theorem c9_login_compares_hash_of_stored_witness :
    (validateUser (fun s => s ++ "#") [⟨"gopi", "secret", []⟩]
      ⟨"gopi", "secret#"⟩).success = true ↔
      "secret#" = hashPassword (fun s => s ++ "#") "secret" :=
  c9_login_compares_hash_of_stored (fun s => s ++ "#") [⟨"gopi", "secret", []⟩]
    ⟨"gopi", "secret#"⟩ ⟨"gopi", "secret", []⟩ rfl (by decide) (by decide)

/-! ## `handleDataReq` overwrites the error payload (C10) -/

/-- Claim C10: for an inbound `data_req` with a non-blank query,
`handleDataReq` sends a `data_res` whose payload equals the executor
result's `data` field — the `errors` value assigned inside the
`!result.success` branch is unconditionally overwritten with
`result.data` before sending, so the response does not depend on the
errors list at all. -/
theorem c10_data_req_errors_overwritten (msg : DataReqMsg) (result : QueryResult)
    (q : String) (hq : msg.payloadQuery = some q)
    (hnb : q.data.all isWsChar = false) :
    (handleDataReq msg result).payload = result.data ∧
    (handleDataReq msg result).type = "data_res" ∧
    ∀ e, handleDataReq msg { result with errors := e } = handleDataReq msg result := by
  refine ⟨?_, ?_, ?_⟩ <;> simp [handleDataReq, hq, hnb]

/-- Witness for C10: a failed execution (`success = false`, an errors
list present, no data): the sent payload is the absent `data` field,
not the errors. -/
theorem c10_data_req_errors_overwritten_witness :
    (handleDataReq ⟨some "42", some "u1", some "SELECT * FROM t"⟩
      ⟨false, none, some ["relation t does not exist"]⟩).payload = none ∧
    (handleDataReq ⟨some "42", some "u1", some "SELECT * FROM t"⟩
      ⟨false, none, some ["relation t does not exist"]⟩).type = "data_res" ∧
    ∀ e, handleDataReq ⟨some "42", some "u1", some "SELECT * FROM t"⟩
        { QueryResult.mk false none (some ["relation t does not exist"]) with errors := e } =
      handleDataReq ⟨some "42", some "u1", some "SELECT * FROM t"⟩
        ⟨false, none, some ["relation t does not exist"]⟩ :=
  c10_data_req_errors_overwritten ⟨some "42", some "u1", some "SELECT * FROM t"⟩
    ⟨false, none, some ["relation t does not exist"]⟩ "SELECT * FROM t" rfl (by decide)

/-! ## Multi-component routing (C2) -/

/-- `mapIdx` preserves length. -/
theorem mapIdx_length (f : Nat → α → β) :
    ∀ (i : Nat) (l : List α), (mapIdx f i l).length = l.length := by
  intro i l
  induction l generalizing i with
  | nil => rfl
  | cons x xs ih => simp [mapIdx, ih]

/-- The types of the built children are the requested component
types, in order. -/
theorem mapIdx_buildMultiChild_types (now : Nat) :
    ∀ (i : Nat) (comps : List CompSpecJson),
      (mapIdx (buildMultiChild now) i comps).map (fun ch => ch.type) =
        comps.map (fun cd => cd.componentType) := by
  intro i comps
  induction comps generalizing i with
  | nil => rfl
  | cons cd cds ih => simp [mapIdx, buildMultiChild, ih]

/-- Claim C2 (amended): a prompt classified as analytical is routed to
the multi-component path exactly when `needsMultiple = true` *and* at
least two visualization types are requested; on that path, when the
capability complies and returns one props set per requested type, the
resolver returns a single `Container` artifact wrapping exactly one
child artifact per requested visualization type, in order. -/
theorem c2_multi_container (c : Classification) (r : MultiGenJson)
    (singleCap : Except Unit SingleGenJson) (matchResult : MatchResultLite)
    (now : Nat) (comps : List CompSpecJson)
    (hq : c.questionType = "analytical") (hm : c.needsMultipleComponents = true)
    (hlen : 2 ≤ c.visualizations.length)
    (hcan : r.canGenerate = true) (hcomps : r.components = some comps)
    (htypes : comps.map (fun cd => cd.componentType) = c.visualizations) :
    (handleUserRequest c (.ok r) singleCap matchResult now).method =
      "classification-multi-generated" ∧
    (handleUserRequest c (.ok r) singleCap matchResult now).needsMultipleComponents = true ∧
    ∃ cont, (handleUserRequest c (.ok r) singleCap matchResult now).component =
        .container cont ∧
      cont.name = "MultiComponentContainer" ∧ cont.type = "Container" ∧
      cont.config.layout = "grid" ∧
      cont.config.components.length = c.visualizations.length ∧
      cont.config.components.map (fun ch => ch.type) = c.visualizations := by
  have hcl : comps.length = c.visualizations.length := by
    have := congrArg List.length htypes
    simpa using this
  have hne : comps.isEmpty = false := by
    cases comps with
    | nil => simp at hcl; omega
    | cons a l => rfl
  rw [handleUserRequest, if_pos hq, if_pos (by omega),
    if_pos (by rw [hm]; simp; omega)]
  rw [generateMultiComponentResponse]
  dsimp only
  rw [hcomps]
  dsimp only [Option.getD_some]
  rw [hcan]
  rw [if_neg (by simp [hne])]
  refine ⟨rfl, rfl, ?_⟩
  refine ⟨_, rfl, rfl, rfl, rfl, ?_, ?_⟩
  · dsimp only
    rw [mapIdx_length]
    exact hcl
  · dsimp only
    rw [mapIdx_buildMultiChild_types]
    exact htypes

/-- Witness for C2 (amended) at a concrete two-type classification with
`needsMultiple = true` and a compliant capability outcome. -/
theorem c2_multi_container_witness :
    (handleUserRequest ⟨"analytical", ["KPICard", "DataTable"], "both", true⟩
      multiCapTwo singleCapKpi matchNone 7).method = "classification-multi-generated" ∧
    (handleUserRequest ⟨"analytical", ["KPICard", "DataTable"], "both", true⟩
      multiCapTwo singleCapKpi matchNone 7).needsMultipleComponents = true ∧
    ∃ cont, (handleUserRequest ⟨"analytical", ["KPICard", "DataTable"], "both", true⟩
        multiCapTwo singleCapKpi matchNone 7).component = .container cont ∧
      cont.name = "MultiComponentContainer" ∧ cont.type = "Container" ∧
      cont.config.layout = "grid" ∧
      cont.config.components.length =
        (Classification.mk "analytical" ["KPICard", "DataTable"] "both" true).visualizations.length ∧
      cont.config.components.map (fun ch => ch.type) =
        (Classification.mk "analytical" ["KPICard", "DataTable"] "both" true).visualizations :=
  c2_multi_container ⟨"analytical", ["KPICard", "DataTable"], "both", true⟩
    { canGenerate := true,
      components := some
        [{ componentType := "KPICard", query := "SELECT COUNT(*) AS value FROM orders",
           title := some "Total Orders", description := some "count", config := none },
         { componentType := "DataTable", query := "SELECT * FROM orders",
           title := some "Orders", description := some "rows", config := none }],
      containerTitle := some "Orders Overview",
      containerDescription := some "count and rows",
      reasoning := none }
    singleCapKpi matchNone 7
    [{ componentType := "KPICard", query := "SELECT COUNT(*) AS value FROM orders",
       title := some "Total Orders", description := some "count", config := none },
     { componentType := "DataTable", query := "SELECT * FROM orders",
       title := some "Orders", description := some "rows", config := none }]
    rfl rfl (by decide) rfl rfl rfl

/-- Counterexample for C2 as stated: a classification that is
analytical and lists two visualization types but has
`needsMultiple = false` is routed to the single-generation path — the
resolver produces one single artifact, not a container — even though
the capability could have produced a compliant multi-component
response. -/
theorem c2_counterexample :
    clsTwoTypesNoFlag.questionType = "analytical" ∧
    2 ≤ clsTwoTypesNoFlag.visualizations.length ∧
    clsTwoTypesNoFlag.needsMultipleComponents = false ∧
    (handleUserRequest clsTwoTypesNoFlag multiCapTwo singleCapKpi matchNone 7).method =
      "classification-generated" ∧
    (handleUserRequest clsTwoTypesNoFlag multiCapTwo singleCapKpi
      matchNone 7).component.isContainer = false := by
  refine ⟨rfl, by decide, rfl, ?_, ?_⟩ <;> rfl

/-! ## Occurrence-counting lemmas for the row-limit guarantee -/

/-- The empty pattern starts everything. -/
theorem nil_isPrefixOf (l : List Char) : ([] : List Char).isPrefixOf l = true := by
  cases l <;> rfl

/-- A pattern is still a prefix after extending the list. -/
theorem isPrefixOf_extend : ∀ (pat l l2 : List Char),
    pat.isPrefixOf l = true → pat.isPrefixOf (l ++ l2) = true := by
  intro pat
  induction pat with
  | nil => intro l l2 _; exact nil_isPrefixOf _
  | cons p ps ih =>
    intro l l2 h
    cases l with
    | nil => simp [List.isPrefixOf] at h
    | cons a l1 =>
      rw [List.cons_append]
      simp only [List.isPrefixOf, Bool.and_eq_true] at h ⊢
      exact ⟨h.1, ih l1 l2 h.2⟩

/-- A space-free pattern is a prefix of `l ++ ' ' :: l2` exactly when
it is a prefix of `l`: an occurrence cannot straddle the space. -/
theorem isPrefixOf_append_space : ∀ (pat l l2 : List Char), ' ' ∉ pat →
    pat.isPrefixOf (l ++ ' ' :: l2) = pat.isPrefixOf l := by
  intro pat
  induction pat with
  | nil => intro l l2 _; rw [nil_isPrefixOf, nil_isPrefixOf]
  | cons p ps ih =>
    intro l l2 hs
    cases l with
    | nil =>
      have hp : p ≠ ' ' := fun h => hs (h ▸ List.mem_cons_self p ps)
      have hb : (p == ' ') = false := by
        simp [hp]
      simp only [List.nil_append, List.isPrefixOf, hb, Bool.false_and]
    | cons a l1 =>
      have hs2 : ' ' ∉ ps := fun h => hs (List.mem_cons_of_mem p h)
      rw [List.cons_append]
      simp only [List.isPrefixOf]
      rw [ih l1 l2 hs2]

/-- Occurrence counting splits at a space when the pattern is
space-free. -/
theorem countOcc_append_space (pat : List Char) (hs : ' ' ∉ pat)
    (l1 l2 : List Char) :
    countOcc pat (l1 ++ ' ' :: l2) = countOcc pat l1 + countOcc pat (' ' :: l2) := by
  induction l1 with
  | nil => simp [countOcc]
  | cons c cs ih =>
    rw [List.cons_append, countOcc, countOcc,
      show c :: (cs ++ ' ' :: l2) = (c :: cs) ++ ' ' :: l2 from rfl,
      isPrefixOf_append_space pat (c :: cs) l2 hs, ih]
    omega

/-- Occurrences in a left part persist in the appended list. -/
theorem countOcc_le_append_left (pat l1 l2 : List Char) :
    countOcc pat l1 ≤ countOcc pat (l1 ++ l2) := by
  induction l1 with
  | nil => simp [countOcc]
  | cons c cs ih =>
    rw [List.cons_append, countOcc, countOcc,
      show c :: (cs ++ l2) = (c :: cs) ++ l2 from rfl]
    by_cases h : pat.isPrefixOf (c :: cs) = true
    · rw [h, isPrefixOf_extend pat (c :: cs) l2 h]
      omega
    · have h0 : (if pat.isPrefixOf (c :: cs) = true then 1 else 0) = 0 := by simp [h]
      rw [h0]
      omega

/-- Occurrences in a right part persist in the appended list. -/
theorem countOcc_le_append_right (pat l1 l2 : List Char) :
    countOcc pat l2 ≤ countOcc pat (l1 ++ l2) := by
  induction l1 with
  | nil => simp
  | cons c cs ih =>
    rw [List.cons_append, countOcc]
    omega

/-- String append at the data level. -/
theorem string_data_append (x y : String) : (x ++ y).data = x.data ++ y.data := by
  cases x
  cases y
  rfl

/-- Strings with equal character data are equal. -/
theorem string_ext_data {x y : String} (h : x.data = y.data) : x = y := by
  cases x
  cases y
  exact congrArg String.mk h

/-- A list with a known last element splits off that element. -/
theorem eq_dropLast_append_of_getLast? : ∀ (l : List Char) (c : Char),
    l.getLast? = some c → l = l.dropLast ++ [c] := by
  intro l
  induction l with
  | nil => intro c h; simp at h
  | cons a t ih =>
    intro c h
    cases t with
    | nil =>
      simp only [List.getLast?_singleton, Option.some.injEq] at h
      subst h
      rfl
    | cons b t2 =>
      rw [List.getLast?_cons_cons] at h
      have := ih c h
      calc a :: b :: t2 = a :: ((b :: t2).dropLast ++ [c]) := by rw [← this]
        _ = (a :: b :: t2).dropLast ++ [c] := by simp

/-! ## Row-limit guarantee (C3, C7) -/

/-- A query already containing a bound clause passes through
`ensureQueryLimit` unmodified. -/
theorem eql_of_hasLimit (q : String) (lim : Nat)
    (h : hasLimitClause q = true) : ensureQueryLimit q lim = q := by
  simp [ensureQueryLimit, h]

/-- Data-level form of the appended clause in the terminator case. -/
theorem limit50_semi (s : String) :
    (s ++ " LIMIT " ++ toString 50 ++ ";").data = s.data ++ (" LIMIT 50;").data := by
  rw [string_data_append, string_data_append, string_data_append,
    List.append_assoc, List.append_assoc]
  congr 1

/-- Data-level form of the appended clause in the no-terminator case. -/
theorem limit50_nosemi (s : String) :
    (s ++ " LIMIT " ++ toString 50).data = s.data ++ (" LIMIT 50").data := by
  rw [string_data_append, string_data_append, List.append_assoc]
  congr 1

/-- Claim C3: for a read-shaped query with no existing bound clause,
`ensureQueryLimit` with the default 50 appends the bound clause
immediately before a trailing statement terminator if present, else at
the end, and the output contains exactly one occurrence of the bound
keyword; a query already containing a bound clause, or a non-read
statement, is returned unchanged. -/
theorem c3_row_limit_guarantee (q : String) :
    (isReadShaped q = true → hasLimitClause q = false →
      ((endsWithSemi q = true →
          ensureQueryLimit q 50 = String.mk q.data.dropLast ++ " LIMIT 50;") ∧
       (endsWithSemi q = false →
          ensureQueryLimit q 50 = q ++ " LIMIT 50") ∧
       countOcc limitPat ((ensureQueryLimit q 50).data.map Char.toUpper) = 1)) ∧
    (hasLimitClause q = true → ensureQueryLimit q 50 = q) ∧
    (isReadShaped q = false → ensureQueryLimit q 50 = q) := by
  refine ⟨?_, fun hl => eql_of_hasLimit q 50 hl, fun hr => by simp [ensureQueryLimit, hr]⟩
  intro hr hl
  have h0 : countOcc limitPat (q.data.map Char.toUpper) = 0 := by
    simpa [hasLimitClause] using hl
  cases hsemi : endsWithSemi q
  · have hout : ensureQueryLimit q 50 = q ++ " LIMIT 50" := by
      rw [show (q ++ " LIMIT 50" : String) = q ++ " LIMIT " ++ toString 50 from
        string_ext_data (limit50_nosemi q).symm]
      simp [ensureQueryLimit, hr, hl, hsemi]
    refine ⟨fun h => absurd h (by simp [hsemi]), fun _ => hout, ?_⟩
    rw [hout, string_data_append, List.map_append]
    rw [show (" LIMIT 50" : String).data.map Char.toUpper =
      ' ' :: ['L', 'I', 'M', 'I', 'T', ' ', '5', '0'] from by decide]
    rw [countOcc_append_space limitPat (by decide), h0]
    decide
  · have hlast : q.data.getLast? = some ';' := by
      simpa [endsWithSemi] using hsemi
    have hq_split : q.data = q.data.dropLast ++ [';'] :=
      eq_dropLast_append_of_getLast? q.data ';' hlast
    have hout : ensureQueryLimit q 50 = String.mk q.data.dropLast ++ " LIMIT 50;" := by
      rw [show (String.mk q.data.dropLast ++ " LIMIT 50;" : String) =
        String.mk q.data.dropLast ++ " LIMIT " ++ toString 50 ++ ";" from
        string_ext_data (limit50_semi (String.mk q.data.dropLast)).symm]
      simp [ensureQueryLimit, hr, hl, hsemi]
    refine ⟨fun _ => hout, fun h => absurd h (by simp [hsemi]), ?_⟩
    have hdl : countOcc limitPat (q.data.dropLast.map Char.toUpper) = 0 := by
      rw [hq_split, List.map_append] at h0
      have := countOcc_le_append_left limitPat (q.data.dropLast.map Char.toUpper)
        ([';'].map Char.toUpper)
      omega
    rw [hout, string_data_append, List.map_append]
    rw [show (String.mk q.data.dropLast).data = q.data.dropLast from rfl]
    rw [show (" LIMIT 50;" : String).data.map Char.toUpper =
      ' ' :: ['L', 'I', 'M', 'I', 'T', ' ', '5', '0', ';'] from by decide]
    rw [countOcc_append_space limitPat (by decide), hdl]
    decide

/-- Witness for C3 at the four branch kinds: no terminator, trailing
terminator, existing bound clause, and a non-read statement. -/
theorem c3_row_limit_guarantee_witness :
    ensureQueryLimit "SELECT * FROM supply_chain_data" 50 =
      "SELECT * FROM supply_chain_data" ++ " LIMIT 50" ∧
    countOcc limitPat
      ((ensureQueryLimit "SELECT * FROM supply_chain_data" 50).data.map Char.toUpper) = 1 ∧
    ensureQueryLimit "SELECT * FROM supply_chain_data;" 50 =
      String.mk ("SELECT * FROM supply_chain_data;" : String).data.dropLast ++ " LIMIT 50;" ∧
    countOcc limitPat
      ((ensureQueryLimit "SELECT * FROM supply_chain_data;" 50).data.map Char.toUpper) = 1 ∧
    ensureQueryLimit "SELECT * FROM supply_chain_data LIMIT 5" 50 =
      "SELECT * FROM supply_chain_data LIMIT 5" ∧
    ensureQueryLimit "INSERT INTO supply_chain_data VALUES (1)" 50 =
      "INSERT INTO supply_chain_data VALUES (1)" :=
  have h1 := (c3_row_limit_guarantee "SELECT * FROM supply_chain_data").1
    (by decide) (by decide)
  have h2 := (c3_row_limit_guarantee "SELECT * FROM supply_chain_data;").1
    (by decide) (by decide)
  ⟨h1.2.1 (by decide), h1.2.2, h2.1 (by decide), h2.2.2,
   (c3_row_limit_guarantee "SELECT * FROM supply_chain_data LIMIT 5").2.1 (by decide),
   (c3_row_limit_guarantee "INSERT INTO supply_chain_data VALUES (1)").2.2 (by decide)⟩

/-- Claim C7: the row-limit guarantee is idempotent — applying
`ensureQueryLimit` twice with the same bound yields the same result as
applying it once, for every query string and every bound. -/
theorem c7_row_limit_idempotent (q : String) (lim : Nat) :
    ensureQueryLimit (ensureQueryLimit q lim) lim = ensureQueryLimit q lim := by
  by_cases hr : isReadShaped q = true
  · by_cases hl : hasLimitClause q = true
    · have h1 := eql_of_hasLimit q lim hl
      rw [h1]
      exact h1
    · have hl' : hasLimitClause q = false := by
        revert hl; cases hasLimitClause q <;> simp
      have key : hasLimitClause (ensureQueryLimit q lim) = true := by
        cases hsemi : endsWithSemi q
        · have hout : ensureQueryLimit q lim = q ++ " LIMIT " ++ toString lim := by
            simp [ensureQueryLimit, hr, hl', hsemi]
          rw [hout]
          unfold hasLimitClause
          rw [string_data_append, string_data_append, List.map_append, List.map_append]
          have h1 : countOcc limitPat ((" LIMIT " : String).data.map Char.toUpper) = 1 := by
            decide
          have h2 := countOcc_le_append_right limitPat (q.data.map Char.toUpper)
            ((" LIMIT " : String).data.map Char.toUpper)
          have h3 := countOcc_le_append_left limitPat
            (q.data.map Char.toUpper ++ (" LIMIT " : String).data.map Char.toUpper)
            ((toString lim).data.map Char.toUpper)
          rw [bne_iff_ne]
          omega
        · have hout : ensureQueryLimit q lim =
              String.mk q.data.dropLast ++ " LIMIT " ++ toString lim ++ ";" := by
            simp [ensureQueryLimit, hr, hl', hsemi]
          rw [hout]
          unfold hasLimitClause
          rw [string_data_append, string_data_append, string_data_append,
            List.map_append, List.map_append, List.map_append]
          have h1 : countOcc limitPat ((" LIMIT " : String).data.map Char.toUpper) = 1 := by
            decide
          have h2 := countOcc_le_append_right limitPat
            ((String.mk q.data.dropLast).data.map Char.toUpper)
            ((" LIMIT " : String).data.map Char.toUpper)
          have h3 := countOcc_le_append_left limitPat
            ((String.mk q.data.dropLast).data.map Char.toUpper ++
              (" LIMIT " : String).data.map Char.toUpper)
            ((toString lim).data.map Char.toUpper)
          have h4 := countOcc_le_append_left limitPat
            (((String.mk q.data.dropLast).data.map Char.toUpper ++
              (" LIMIT " : String).data.map Char.toUpper) ++
              (toString lim).data.map Char.toUpper)
            (";".data.map Char.toUpper)
          rw [bne_iff_ne]
          omega
      exact eql_of_hasLimit _ lim key
  · have hr' : isReadShaped q = false := by
      revert hr; cases isReadShaped q <;> simp
    have h1 : ensureQueryLimit q lim = q := by simp [ensureQueryLimit, hr']
    rw [h1]
    exact h1

/-! ## Outbound size guard (C1) -/

/-- Byte length distributes over string append. -/
theorem utf8Len_append (s t : String) : utf8Len (s ++ t) = utf8Len s + utf8Len t := by
  rw [utf8Len, utf8Len, utf8Len, string_data_append, List.map_append, List.sum_append]

/-- The big payload is 1100000 bytes long. -/
theorem utf8Len_bigStr : utf8Len bigStr = 1100000 := by
  rw [utf8Len, show bigStr.data = List.replicate 1100000 'a' from rfl,
    List.map_replicate, show Char.utf8Size 'a' = 1 from by decide, List.sum_replicate]
  simp

/-- The big payload consists of plain characters, so JSON escaping
leaves it unchanged. -/
theorem escape_bigStr : escapeString bigStr = bigStr := by
  have h : ∀ n, (List.replicate n 'a').flatMap escapeChar = List.replicate n 'a' := by
    intro n
    induction n with
    | zero => rfl
    | succ n ih =>
      rw [List.replicate_succ, List.flatMap_cons, ih,
        show escapeChar 'a' = ['a'] from by decide]
      rfl
  exact string_ext_data (h 1100000)

/-- The serialized form of `bigEnvelope` measures 1100063 bytes. -/
theorem utf8Len_bigEnvelope : utf8Len bigEnvelope.serialize = 1100063 := by
  simp only [bigEnvelope, Envelope.serialize, Envelope.toJson, Json.stringify,
    stringifyFields]
  rw [escape_bigStr]
  simp only [utf8Len_append]
  rw [utf8Len_bigStr]
  decide

/-- `send` on any oversized envelope transmits the diagnostic
replacement and returns `false`. -/
theorem send_eq_oversize (e : Envelope) (h : 1048576 < utf8Len e.serialize) :
    send e = (⟨e.id, e.type, e.from_, e.to_,
      .obj [("error", .str (oversizeErrorText (utf8Len e.serialize)))]⟩, false) := by
  have hd : decide (utf8Len e.serialize ≤ 1048576) = false :=
    decide_eq_false (Nat.not_le.mpr h)
  simp [send, validateMessageSize, hd]

/-- `send` on any envelope within the ceiling transmits it unchanged
and returns `true`. -/
theorem send_eq_within (e : Envelope) (h : utf8Len e.serialize ≤ 1048576) :
    send e = (e, true) := by
  have hd : decide (utf8Len e.serialize ≤ 1048576) = true := decide_eq_true h
  simp [send, validateMessageSize, hd]

/-- Evaluation of `send` at the oversized envelope: the diagnostic
replacement is transmitted and `send` returns `false`. -/
theorem send_bigEnvelope_eq :
    send bigEnvelope =
      (⟨"1", "data_res", .null, .null, .obj [("error", .str oversizeMsgBig)]⟩, false) := by
  rw [send_eq_oversize bigEnvelope (by rw [utf8Len_bigEnvelope]; decide)]
  rw [utf8Len_bigEnvelope]
  rw [show oversizeErrorText 1100063 = oversizeMsgBig from by decide]
  rfl

/-- Claim C1 (amended): an envelope whose serialized form exceeds the
1 MiB ceiling is not transmitted; `send` instead transmits a
replacement envelope with the same `id`, `type`, `from` and `to` whose
payload describes the oversize condition including the measured size
(the maximum size is logged but not included in the payload), and
returns `false`; every envelope serializing to at most the ceiling
(including exactly the ceiling) is transmitted unchanged. -/
theorem c1_send_size_guard (e : Envelope) :
    (1048576 < utf8Len e.serialize →
      send e = (⟨e.id, e.type, e.from_, e.to_,
        .obj [("error", .str (oversizeErrorText (utf8Len e.serialize)))]⟩, false)) ∧
    (utf8Len e.serialize ≤ 1048576 → send e = (e, true)) :=
  ⟨fun h => send_eq_oversize e h, fun h => send_eq_within e h⟩

/-- Witness for C1 (amended): the 1100063-byte envelope is replaced by
the diagnostic envelope; a small envelope passes unchanged. -/
theorem c1_send_size_guard_witness :
    send bigEnvelope = (⟨"1", "data_res", Json.null, Json.null,
      .obj [("error", .str (oversizeErrorText (utf8Len bigEnvelope.serialize)))]⟩, false) ∧
    send smallEnvelope = (smallEnvelope, true) := by
  constructor
  · exact (c1_send_size_guard bigEnvelope).1 (by rw [utf8Len_bigEnvelope]; decide)
  · exact (c1_send_size_guard smallEnvelope).2 (by decide)

/-- Counterexample for C1 as stated: the diagnostic payload sent for
the oversized `bigEnvelope` renders the measured size (1.05 MB) but
contains neither the ceiling in bytes (`1048576`) nor its megabyte
rendering (`1.00`), so the payload does not describe the maximum
size. -/
theorem c1_counterexample :
    1048576 < utf8Len bigEnvelope.serialize ∧
    (send bigEnvelope).1.payload = .obj [("error", .str oversizeMsgBig)] ∧
    countOcc ['1', '0', '4', '8', '5', '7', '6'] oversizeMsgBig.data = 0 ∧
    countOcc ['1', '.', '0', '0'] oversizeMsgBig.data = 0 ∧
    countOcc ['1', '.', '0', '5'] oversizeMsgBig.data = 1 := by
  refine ⟨by rw [utf8Len_bigEnvelope]; decide, ?_, by decide, by decide, by decide⟩
  rw [send_bigEnvelope_eq]

end PgAgent
